import Mathlib

/-!
Verification of `mcp_stdio_bridge.py`, a stdio ↔ HTTP protocol bridge.

The bridge reads newline-delimited JSON-RPC requests from stdin, dispatches
on the `method` field, optionally performs one HTTP POST to a weather
backend, and writes at most one JSON-RPC response line per request.

The embedding below translates the Python source shallowly:
* JSON values are the inductive `JVal` (numbers modelled as `Int`; every
  JSON number appearing in the program and its fixtures is integral).
* `json.loads` on an input line and `response.json()` on an HTTP body are
  external library calls; they are abstracted as `String → Except String JVal`
  (the `String` of the `error` case is the message of the raised exception).
* The `requests.post` call is abstracted as a function from the posted
  arguments to an `HTTPResult` (status + decoded body, connection error, or
  other exception).
* Each `send_response(...)` in the source becomes one `JVal` in the returned
  list of output frames; `log_error` (stderr) is not an output frame and is
  not modelled.
* Python `str()` / `repr()` of the values interpolated into f-strings are
  modelled by `pyStr` / `pyRepr` (escape sequences inside `repr` of exotic
  strings are not modelled; no property below depends on them).
-/

/-- A JSON value as produced by `json.loads`. Object fields are kept in
insertion order, matching Python dict semantics. -/
inductive JVal where
  | null : JVal
  | bool : Bool → JVal
  | num : Int → JVal
  | str : String → JVal
  | arr : List JVal → JVal
  | obj : List (String × JVal) → JVal
deriving Repr

/-- Python `dict` lookup: first (and in a real dict, only) binding wins. -/
def lookupField : List (String × JVal) → String → Option JVal
  | [], _ => none
  | (k, v) :: rest, key => if k = key then some v else lookupField rest key

/-- Python type name of a value, as it appears in TypeError/AttributeError
messages. -/
def pyTypeName : JVal → String
  | .null => "NoneType"
  | .bool _ => "bool"
  | .num _ => "int"
  | .str _ => "str"
  | .arr _ => "list"
  | .obj _ => "dict"

mutual
/-- Python `repr` of a JSON-derived value. -/
def pyRepr : JVal → String
  | .null => "None"
  | .bool true => "True"
  | .bool false => "False"
  | .num n => toString n
  | .str s => "'" ++ s ++ "'"
  | .arr xs => "[" ++ pyReprElems xs ++ "]"
  | .obj fs => "\x7b" ++ pyReprFields fs ++ "\x7d"

/-- `repr` of the comma-separated elements of a Python list. -/
def pyReprElems : List JVal → String
  | [] => ""
  | [x] => pyRepr x
  | x :: rest => pyRepr x ++ ", " ++ pyReprElems rest

/-- `repr` of the comma-separated entries of a Python dict. -/
def pyReprFields : List (String × JVal) → String
  | [] => ""
  | [(k, v)] => "'" ++ k ++ "': " ++ pyRepr v
  | (k, v) :: rest => "'" ++ k ++ "': " ++ pyRepr v ++ ", " ++ pyReprFields rest
end

/-- Python `str` of a JSON-derived value, as interpolated by an f-string. -/
def pyStr : JVal → String
  | .null => "None"
  | .bool true => "True"
  | .bool false => "False"
  | .num n => toString n
  | .str s => s
  | .arr xs => "[" ++ pyReprElems xs ++ "]"
  | .obj fs => "\x7b" ++ pyReprFields fs ++ "\x7d"

/-- Outcome of the `requests.post` call in `handle_call_tool`.
`resp status body`: the server answered; `body` is what `response.json()`
would yield (`Except.error m` models the decode raising with message `m`).
`connError`: `requests.exceptions.ConnectionError`.
`exc m`: any other exception (e.g. a timeout), with message `m`. -/
inductive HTTPResult where
  | resp : Nat → Except String JVal → HTTPResult
  | connError : HTTPResult
  | exc : String → HTTPResult

/-- A JSON-RPC success frame, as built throughout the source. -/
def mkResult (request_id result : JVal) : JVal :=
  .obj [("jsonrpc", .str "2.0"), ("id", request_id), ("result", result)]

/-- A JSON-RPC error frame, as built throughout the source. The message is a
`JVal` because the non-200 path forwards whatever the body's `error` field
holds. -/
def mkError (request_id : JVal) (code : Int) (message : JVal) : JVal :=
  .obj [("jsonrpc", .str "2.0"), ("id", request_id),
        ("error", .obj [("code", .num code), ("message", message)])]

/-- `handle_initialize`: the fixed capability/version descriptor. -/
def handle_initialize (request_id : JVal) : JVal :=
  mkResult request_id (.obj
    [("protocolVersion", .str "2024-11-05"),
     ("capabilities", .obj [("tools", .obj [])]),
     ("serverInfo", .obj
       [("name", .str "rust-weather-api"), ("version", .str "0.3.0")])])

/-- `handle_list_tools`: the static descriptor of the single tool. -/
def handle_list_tools (request_id : JVal) : JVal :=
  mkResult request_id (.obj
    [("tools", .arr
      [.obj
        [("name", .str "weather_info"),
         ("description",
          .str "Get weather information for specified cities from Rust Weather API"),
         ("inputSchema", .obj
           [("type", .str "object"),
            ("properties", .obj
              [("cities", .obj
                [("type", .str "array"),
                 ("items", .obj [("type", .str "string")]),
                 ("description", .str "List of city names (max 20)")])]),
            ("required", .arr [.str "cities"])])]])])

/-- `handle_ping`: empty success result. -/
def handle_ping (request_id : JVal) : JVal :=
  mkResult request_id (.obj [])

/-- Python subscript `j[key]` with a string key: the value on success, the
`str()` of the raised exception on failure (`str(KeyError(k))` is the repr
of the key). -/
def pySubscript (j : JVal) (key : String) : Except String JVal :=
  match j with
  | .obj fields =>
    match lookupField fields key with
    | some v => .ok v
    | none => .error ("'" ++ key ++ "'")
  | .arr _ => .error "list indices must be integers or slices, not str"
  | .str _ => .error "string indices must be integers"
  | v => .error ("'" ++ pyTypeName v ++ "' object is not subscriptable")

/-- `str()` of the AttributeError raised by calling method `attr` on a
non-dict value. -/
def attrErrMsg (v : JVal) (attr : String) : String :=
  "'" ++ pyTypeName v ++ "' object has no attribute '" ++ attr ++ "'"

/-- The per-city lines appended inside the `for city, info in ...` loop of
`handle_call_tool`, or the message of the exception the loop body raises. -/
def formatCity (city : String) (info : JVal) : Except String (List String) := do
  let t ← pySubscript info "temperature"
  let c ← pySubscript info "condition"
  let h ← pySubscript info "humidity"
  let w ← pySubscript info "wind_speed"
  pure ["\n🌍 " ++ city,
        "   Temperature: " ++ pyStr t ++ "°C",
        "   Condition: " ++ pyStr c,
        "   Humidity: " ++ pyStr h ++ "%",
        "   Wind Speed: " ++ pyStr w ++ " km/h"]

/-- The whole `for` loop over `data['results'].items()`. -/
def formatCities : List (String × JVal) → Except String (List String)
  | [] => .ok []
  | (city, info) :: rest => do
    let block ← formatCity city info
    let more ← formatCities rest
    pure (block ++ more)

/-- Python `v.items()` on the decoded `results`: the entry list for a dict,
otherwise the AttributeError message. -/
def pyItems (v : JVal) : Except String (List (String × JVal)) :=
  match v with
  | .obj fields => .ok fields
  | _ => .error (attrErrMsg v "items")

/-- Python `"=" * 60` etc. -/
def pyRepeat (s : String) : Nat → String
  | 0 => ""
  | n + 1 => s ++ pyRepeat s n

/-- Lines 97–107 of the source: building `results_text` from the decoded
200-body and joining with newlines, or the message of the exception raised
part-way (caught by the surrounding `except Exception`). -/
def formatResults (data : JVal) : Except String String := do
  let ts ← pySubscript data "timestamp"
  let results ← pySubscript data "results"
  let items ← pyItems results
  let cityLines ← formatCities items
  pure (String.intercalate "\n"
    (("Weather Information (Retrieved: " ++ pyStr ts ++ ")")
      :: pyRepeat "=" 60 :: cityLines))

/-- The fixed message of the ConnectionError branch. -/
def connErrorMsg : String :=
  "Cannot connect to Rust Weather API server. Please ensure 'cargo run --bin server' is running on port 3000."

/-- Python `tool_name != "weather_info"` specialised: `true` iff the value
is the string `weather_info`. -/
def isWeatherTool : JVal → Bool
  | .str s => s = "weather_info"
  | _ => false

/-- `handle_call_tool(request_id, params)`. Returns the list of output
frames written (one frame, except when `params` is not a dict: then
`params.get` raises before the `try`, the main loop's `except Exception`
swallows it, and nothing is written). `backend` abstracts the
`requests.post` call as a map from posted arguments to outcome. -/
def handle_call_tool (backend : JVal → HTTPResult) (request_id params : JVal) :
    List JVal :=
  match params with
  | .obj pfields =>
    let tool_name := (lookupField pfields "name").getD .null
    let arguments := (lookupField pfields "arguments").getD (.obj [])
    if isWeatherTool tool_name then
      match backend arguments with
      | .resp status body =>
        if status = 200 then
          match body with
          | .ok data =>
            match formatResults data with
            | .ok text =>
              [mkResult request_id (.obj
                [("content", .arr
                  [.obj [("type", .str "text"), ("text", .str text)]])])]
            | .error e =>
              [mkError request_id (-32603) (.str ("Internal error: " ++ e))]
          | .error e =>
            [mkError request_id (-32603) (.str ("Internal error: " ++ e))]
        else
          match body with
          | .ok (.obj efields) =>
            [mkError request_id (Int.ofNat status)
              ((lookupField efields "error").getD (.str "HTTP request failed"))]
          | .ok other =>
            [mkError request_id (-32603)
              (.str ("Internal error: " ++ attrErrMsg other "get"))]
          | .error e =>
            [mkError request_id (-32603) (.str ("Internal error: " ++ e))]
      | .connError => [mkError request_id (-32603) (.str connErrorMsg)]
      | .exc e =>
        [mkError request_id (-32603) (.str ("Internal error: " ++ e))]
    else
      [mkError request_id (-32601) (.str ("Unknown tool: " ++ pyStr tool_name))]
  | _ => []

/-- Python `method == "m"` where `method` may be any value. -/
def jeqStr (v : JVal) (s : String) : Bool :=
  match v with
  | .str t => t = s
  | _ => false

/-- The dispatch on one decoded request (body of the `for line in sys.stdin`
loop after `json.loads` succeeded). A non-dict value makes `request.get`
raise AttributeError, caught by the loop's `except Exception`: no frame. -/
def processRequest (backend : JVal → HTTPResult) (request : JVal) : List JVal :=
  match request with
  | .obj fields =>
    let request_id := (lookupField fields "id").getD .null
    let method := (lookupField fields "method").getD .null
    let params := (lookupField fields "params").getD (.obj [])
    if jeqStr method "initialize" then [ handle_initialize request_id]
    else if jeqStr method "tools/list" then [handle_list_tools request_id]
    else if jeqStr method "tools/call" then
      handle_call_tool backend request_id params
    else if jeqStr method "ping" then [handle_ping request_id]
    else if jeqStr method "notifications/initialized" then []
    else
      [mkError request_id (-32601)
        (.str ("Method not found: " ++ pyStr method))]
  | _ => []

/-- One iteration of the stdin loop on a raw line. `decode` abstracts
`json.loads`; a decode failure is logged to stderr only. -/
def processLine (decode : String → Except String JVal)
    (backend : JVal → HTTPResult) (line : String) : List JVal :=
  let l := line.trim
  if l = "" then []
  else
    match decode l with
    | .error _ => []
    | .ok request => processRequest backend request

/-- The whole `main` read loop over the input stream: the concatenation, in
input order, of the frames each line produces. -/
def runBridge (decode : String → Except String JVal)
    (backend : JVal → HTTPResult) : List String → List JVal
  | [] => []
  | line :: rest =>
    processLine decode backend line ++ runBridge decode backend rest

/-- The `id` field of an output frame. -/
def respId (r : JVal) : Option JVal :=
  match r with
  | .obj fields => lookupField fields "id"
  | _ => none

/-- The `error.code` field of an output frame, when it is an error frame. -/
def respErrorCode (r : JVal) : Option Int :=
  match r with
  | .obj fields =>
    match lookupField fields "error" with
    | some (.obj efields) =>
      match lookupField efields "code" with
      | some (.num n) => some n
      | _ => none
    | _ => none
  | _ => none

/-- The `error.message` field of an output frame, when present. -/
def respErrorMsg (r : JVal) : Option JVal :=
  match r with
  | .obj fields =>
    match lookupField fields "error" with
    | some (.obj efields) => lookupField efields "message"
    | _ => none
  | _ => none

/-- Fixture backend: no listener on the port, every POST raises
ConnectionError. -/
def probeBackend : JVal → HTTPResult := fun _ => .connError

theorem respId_mkResult (i r : JVal) : respId (mkResult i r) = some i := rfl

theorem respId_mkError (i : JVal) (c : Int) (m : JVal) :
    respId (mkError i c m) = some i := rfl

theorem respErrorCode_mkError (i : JVal) (c : Int) (m : JVal) :
    respErrorCode (mkError i c m) = some c := rfl

theorem respErrorMsg_mkError (i : JVal) (c : Int) (m : JVal) :
    respErrorMsg (mkError i c m) = some m := rfl

theorem jeqStr_eq_false {v : JVal} {s : String} (h : v ≠ .str s) :
    jeqStr v s = false := by
  cases v <;> simp [jeqStr]
  intro h2
  exact h (by rw [h2])

theorem isWeatherTool_eq_false {v : JVal} (h : v ≠ .str "weather_info") :
    isWeatherTool v = false := by
  cases v <;> simp [isWeatherTool]
  intro h2
  exact h (by rw [h2])

theorem handle_call_tool_shape (backend : JVal → HTTPResult) (i : JVal)
    (pfields : List (String × JVal)) :
    ∃ r, handle_call_tool backend i (.obj pfields) = [r] ∧ respId r = some i := by
  simp only [handle_call_tool]
  repeat' split
  all_goals
    first
      | exact ⟨_, rfl, respId_mkResult _ _⟩
      | exact ⟨_, rfl, respId_mkError _ _ _⟩

theorem handle_call_tool_respId (backend : JVal → HTTPResult) (i p : JVal) :
    ∀ r ∈ handle_call_tool backend i p, respId r = some i := by
  cases p with
  | obj pfields =>
    obtain ⟨r0, hr0, hid0⟩ := handle_call_tool_shape backend i pfields
    intro r hr
    rw [hr0] at hr
    simp at hr
    rw [hr]
    exact hid0
  | null => intro r hr; simp [handle_call_tool] at hr
  | bool b => intro r hr; simp [handle_call_tool] at hr
  | num n => intro r hr; simp [handle_call_tool] at hr
  | str s => intro r hr; simp [handle_call_tool] at hr
  | arr xs => intro r hr; simp [handle_call_tool] at hr

theorem processRequest_respId (backend : JVal → HTTPResult)
    (fields : List (String × JVal)) :
    ∀ r ∈ processRequest backend (.obj fields),
      respId r = some ((lookupField fields "id").getD .null) := by
  simp only [processRequest]
  repeat' split
  all_goals
    first
      | exact handle_call_tool_respId backend _ _
      | (intro r hr; simp at hr; rw [hr])
      | (intro r hr; simp at hr)
  all_goals rfl

theorem processRequest_shape (backend : JVal → HTTPResult)
    (fields : List (String × JVal))
    (hmethod : (lookupField fields "method").getD .null
        ≠ .str "notifications/initialized")
    (hparams : ∀ pv, lookupField fields "params" = some pv →
        ∃ l, pv = JVal.obj l) :
    ∃ r, processRequest backend (.obj fields) = [r] ∧
      respId r = some ((lookupField fields "id").getD .null) := by
  have hpobj : ∃ l, (lookupField fields "params").getD (.obj []) = JVal.obj l := by
    cases hp : lookupField fields "params" with
    | none => exact ⟨[], rfl⟩
    | some pv => exact hparams pv hp
  obtain ⟨l, hl⟩ := hpobj
  have hnotif := jeqStr_eq_false hmethod
  simp only [processRequest]
  repeat' split
  all_goals first
    | exact ⟨_, rfl, respId_mkResult _ _⟩
    | exact ⟨_, rfl, respId_mkError _ _ _⟩
    | (rw [hl]; exact handle_call_tool_shape backend _ l)
    | (exfalso; simp_all)

theorem runBridge_append (d : String → Except String JVal)
    (b : JVal → HTTPResult) (ls1 ls2 : List String) :
    runBridge d b (ls1 ++ ls2) = runBridge d b ls1 ++ runBridge d b ls2 := by
  induction ls1 with
  | nil => simp [runBridge]
  | cons l rest ih => simp [runBridge, ih]

/-- Field lookup on a JSON value: `some` only on objects. -/
def jlook (j : JVal) (k : String) : Option JVal :=
  match j with
  | .obj fields => lookupField fields k
  | _ => none

/-- Total field access on a JSON value (used only under hypotheses that the
field is present). -/
def jget (j : JVal) (k : String) : JVal :=
  (jlook j k).getD .null

/-- The per-city block the spec describes: a block showing the city's
temperature, condition, humidity and wind speed. -/
def specCityBlock (city : String) (info : JVal) : List String :=
  ["\n🌍 " ++ city,
   "   Temperature: " ++ pyStr (jget info "temperature") ++ "°C",
   "   Condition: " ++ pyStr (jget info "condition"),
   "   Humidity: " ++ pyStr (jget info "humidity") ++ "%",
   "   Wind Speed: " ++ pyStr (jget info "wind_speed") ++ " km/h"]

/-- Per-city blocks, one after another, in the order the cities were
received. -/
def specBlocks : List (String × JVal) → List String
  | [] => []
  | (c, r) :: rest => specCityBlock c r ++ specBlocks rest

/-- The text layout the spec describes for a successful call: a header line
embedding the timestamp, a separator rule, then the per-city blocks in the
order received, joined into one newline-separated text. -/
def specWeatherText (ts : JVal) (items : List (String × JVal)) : String :=
  String.intercalate "\n"
    (("Weather Information (Retrieved: " ++ pyStr ts ++ ")")
      :: pyRepeat "=" 60 :: specBlocks items)

/-- A per-city record carrying all four expected fields. -/
def recOkB (r : JVal) : Bool :=
  match r with
  | .obj rf =>
    (lookupField rf "temperature").isSome && (lookupField rf "condition").isSome
      && (lookupField rf "humidity").isSome && (lookupField rf "wind_speed").isSome
  | _ => false

theorem formatCity_ok (c : String) {r : JVal} (h : recOkB r = true) :
    formatCity c r = .ok (specCityBlock c r) := by
  cases r <;> simp [recOkB] at h
  case obj rf =>
  obtain ⟨⟨⟨h1, h2⟩, h3⟩, h4⟩ := h
  obtain ⟨t, ht⟩ := Option.isSome_iff_exists.mp h1
  obtain ⟨cv, hc⟩ := Option.isSome_iff_exists.mp h2
  obtain ⟨hv, hh⟩ := Option.isSome_iff_exists.mp h3
  obtain ⟨w, hw⟩ := Option.isSome_iff_exists.mp h4
  simp [formatCity, pySubscript, specCityBlock, jget, jlook, ht, hc, hh, hw,
        bind, Except.bind, pure, Except.pure]

theorem formatCities_ok {items : List (String × JVal)}
    (h : ∀ p ∈ items, recOkB p.2 = true) :
    formatCities items = .ok (specBlocks items) := by
  induction items with
  | nil => rfl
  | cons p rest ih =>
    obtain ⟨c, r⟩ := p
    have hr : recOkB r = true := h (c, r) (List.mem_cons_self _ _)
    have hrest : ∀ q ∈ rest, recOkB q.2 = true :=
      fun q hq => h q (List.mem_cons_of_mem _ hq)
    simp [formatCities, formatCity_ok c hr, ih hrest, specBlocks,
          bind, Except.bind, pure, Except.pure]

theorem formatResults_ok {dfields : List (String × JVal)} {ts : JVal}
    {items : List (String × JVal)}
    (hts : lookupField dfields "timestamp" = some ts)
    (hres : lookupField dfields "results" = some (.obj items))
    (hrec : ∀ p ∈ items, recOkB p.2 = true) :
    formatResults (.obj dfields) = .ok (specWeatherText ts items) := by
  simp [formatResults, pySubscript, pyItems, hts, hres,
        formatCities_ok hrec, specWeatherText, bind, Except.bind, Except.map, pure, Except.pure]

/-- A per-city record that is a mapping but lacks at least one of the four
expected fields. -/
def recMissing (r : JVal) : Prop :=
  ∃ rf, r = JVal.obj rf ∧
    (lookupField rf "temperature" = none ∨ lookupField rf "condition" = none
      ∨ lookupField rf "humidity" = none ∨ lookupField rf "wind_speed" = none)

/-- A decoded 200-body that is a mapping but lacks an expected field: the
top-level `timestamp` or `results`, or one of the four fields of some
per-city record. -/
def missingWeatherField (data : JVal) : Prop :=
  ∃ dfields, data = JVal.obj dfields ∧
    (lookupField dfields "timestamp" = none
      ∨ lookupField dfields "results" = none
      ∨ ∃ items, lookupField dfields "results" = some (.obj items)
          ∧ ∃ p ∈ items, recMissing p.2)

theorem formatCity_missing (c : String) {r : JVal} (h : recMissing r) :
    ∃ e, formatCity c r = .error e := by
  obtain ⟨rf, hrf, hcase⟩ := h
  subst hrf
  simp only [formatCity, pySubscript]
  cases ht : lookupField rf "temperature" with
  | none => exact ⟨_, rfl⟩
  | some t =>
    cases hc : lookupField rf "condition" with
    | none => exact ⟨_, rfl⟩
    | some cv =>
      cases hh : lookupField rf "humidity" with
      | none => exact ⟨_, rfl⟩
      | some hv =>
        cases hw : lookupField rf "wind_speed" with
        | none => exact ⟨_, rfl⟩
        | some w => simp_all

theorem formatCities_missing {items : List (String × JVal)}
    (h : ∃ p ∈ items, recMissing p.2) :
    ∃ e, formatCities items = .error e := by
  induction items with
  | nil => simp at h
  | cons q rest ih =>
    obtain ⟨c, r⟩ := q
    simp only [formatCities]
    cases hc : formatCity c r with
    | error e => exact ⟨e, rfl⟩
    | ok block =>
      obtain ⟨p, hp, hpm⟩ := h
      rcases List.mem_cons.mp hp with hphead | hptail
      · obtain ⟨e, he⟩ := formatCity_missing c (by rw [hphead] at hpm; exact hpm)
        rw [he] at hc
        exact absurd hc (by simp)
      · obtain ⟨e, he⟩ := ih ⟨p, hptail, hpm⟩
        exact ⟨e, by simp [he, bind, Except.bind]⟩

theorem formatResults_missing {data : JVal} (h : missingWeatherField data) :
    ∃ e, formatResults data = .error e := by
  obtain ⟨dfields, hdf, hcase⟩ := h
  subst hdf
  simp only [formatResults, pySubscript]
  cases ht : lookupField dfields "timestamp" with
  | none => exact ⟨_, rfl⟩
  | some ts =>
    cases hr : lookupField dfields "results" with
    | none => exact ⟨_, rfl⟩
    | some res =>
      rcases hcase with hc1 | hc2 | ⟨items, hitems, hmem⟩
      · exact absurd ht (by simp [hc1])
      · exact absurd hr (by simp [hc2])
      · rw [hitems] at hr
        injection hr with hr
        subst hr
        obtain ⟨e, he⟩ := formatCities_missing hmem
        exact ⟨e, by simp [pyItems, he, bind, Except.bind, Except.map]⟩

/-- Python truth of `method == m` for any of the five dispatch arms. -/
def isKnownMethod (m : JVal) : Bool :=
  jeqStr m "initialize" || jeqStr m "tools/list" || jeqStr m "tools/call"
    || jeqStr m "ping" || jeqStr m "notifications/initialized"

/-- Fixture backend: answers 404 with a body that `response.json()` cannot
decode. -/
def badBodyBackend : JVal → HTTPResult :=
  fun _ => .resp 404 (.error "Expecting value: line 1 column 1 (char 0)")

/-- Fixture backend: answers 200 with an empty JSON object body. -/
def emptyOkBackend : JVal → HTTPResult := fun _ => .resp 200 (.ok (.obj []))

/-- Fixture decoder on which `json.loads` raises for every line. -/
def failDecode : String → Except String JVal :=
  fun _ => .error "Expecting value: line 1 column 1 (char 0)"

/-- The fields of the spec's example 200-body for Paris. -/
def parisResults : List (String × JVal) :=
  [("Paris", .obj
    [("temperature", .num 18), ("condition", .str "Cloudy"),
     ("humidity", .num 60), ("wind_speed", .num 12)])]

/-- The spec's example 200-body. -/
def parisFields : List (String × JVal) :=
  [("timestamp", .str "2024-01-01T00:00:00Z"), ("results", .obj parisResults)]

/-- Fixture backend answering 200 with the Paris example body. -/
def parisBackend : JVal → HTTPResult :=
  fun _ => .resp 200 (.ok (.obj parisFields))

/-- C1 (amended): every request object carrying an `id`, whose method is not
`notifications/initialized` and whose `params`, when present, is a mapping,
gets exactly one framed response carrying that same `id`; and the read loop
emits per-line outputs in input order with no reordering or batching (output
of a concatenated stream is the concatenation of the outputs). -/
theorem c1_one_response_per_id_request (backend : JVal → HTTPResult)
    (fields : List (String × JVal)) (idv : JVal)
    (hid : lookupField fields "id" = some idv)
    (hmethod : (lookupField fields "method").getD .null
        ≠ .str "notifications/initialized")
    (hparams : ∀ pv, lookupField fields "params" = some pv →
        ∃ l, pv = JVal.obj l) :
    ((processRequest backend (.obj fields)).length = 1 ∧
      ∀ r ∈ processRequest backend (.obj fields), respId r = some idv) ∧
    ∀ (d : String → Except String JVal) (ls1 ls2 : List String),
      runBridge d backend (ls1 ++ ls2)
        = runBridge d backend ls1 ++ runBridge d backend ls2 := by
  obtain ⟨r, hr, hrid⟩ := processRequest_shape backend fields hmethod hparams
  refine ⟨⟨by rw [hr]; rfl, ?_⟩, fun d ls1 ls2 => runBridge_append d backend ls1 ls2⟩
  intro r' hr'
  rw [hr] at hr'
  simp at hr'
  subst hr'
  rw [hrid, hid]
  rfl

/-- C1 witness: a ping request with id 1 gets exactly one response. -/
theorem c1_witness :
    (processRequest probeBackend
      (.obj [("id", .num 1), ("method", .str "ping")])).length = 1 :=
  (c1_one_response_per_id_request probeBackend
    [("id", .num 1), ("method", .str "ping")] (.num 1) rfl
    (by intro h; exact absurd (JVal.str.inj h) (by decide))
    (by intro pv h; exact Option.noConfusion h)).1.1

/-- C1 counterexample: a well-formed request carrying id 1 whose method is
`notifications/initialized` produces no framed response at all, so it is not
true that every id-carrying request gets exactly one response. -/
theorem c1_counterexample :
    processRequest probeBackend
      (.obj [("id", .num 1), ("method", .str "notifications/initialized")])
      = [] := rfl

/-- C2 (amended): a request without an `id` produces no output when its
method is `notifications/initialized`; for every other method the bridge
does emit its usual response, whose `id` field is JSON null (the absent id
is rendered as null, not omitted). -/
theorem c2_absent_id_behaviour (backend : JVal → HTTPResult)
    (fields : List (String × JVal))
    (hid : lookupField fields "id" = none)
    (hparams : ∀ pv, lookupField fields "params" = some pv →
        ∃ l, pv = JVal.obj l) :
    ((lookupField fields "method").getD .null
        = .str "notifications/initialized" →
      processRequest backend (.obj fields) = []) ∧
    ((lookupField fields "method").getD .null
        ≠ .str "notifications/initialized" →
      ∃ r, processRequest backend (.obj fields) = [r]
        ∧ respId r = some JVal.null) := by
  constructor
  · intro hm
    have e1 : jeqStr (.str "notifications/initialized") "initialize" = false := rfl
    have e2 : jeqStr (.str "notifications/initialized") "tools/list" = false := rfl
    have e3 : jeqStr (.str "notifications/initialized") "tools/call" = false := rfl
    have e4 : jeqStr (.str "notifications/initialized") "ping" = false := rfl
    have e5 : jeqStr (.str "notifications/initialized")
        "notifications/initialized" = true := rfl
    simp [processRequest, hm, e1, e2, e3, e4, e5]
  · intro hm
    obtain ⟨r, hr, hrid⟩ := processRequest_shape backend fields hm hparams
    refine ⟨r, hr, ?_⟩
    rw [hrid, hid]
    rfl

/-- C2 witness: an id-less `notifications/initialized` request really
produces no output, while an id-less ping request produces exactly one
frame whose id is null. -/
theorem c2_witness :
    processRequest probeBackend
      (.obj [("method", .str "notifications/initialized")]) = [] ∧
    ∃ r, processRequest probeBackend (.obj [("method", .str "ping")]) = [r]
      ∧ respId r = some JVal.null :=
  ⟨(c2_absent_id_behaviour probeBackend
      [("method", .str "notifications/initialized")] rfl
      (by intro pv h; exact Option.noConfusion h)).1 rfl,
   (c2_absent_id_behaviour probeBackend [("method", .str "ping")] rfl
      (by intro pv h; exact Option.noConfusion h)).2
     (by intro h; exact absurd (JVal.str.inj h) (by decide))⟩

/-- C2 counterexample: an id-less ping request produces output (one frame
with id null), so it is false that a request without an `id` never produces
output whatever its method is. -/
theorem c2_counterexample :
    processRequest probeBackend (.obj [("method", .str "ping")])
        = [handle_ping JVal.null] ∧
    processRequest probeBackend (.obj [("method", .str "ping")]) ≠ [] := by
  refine ⟨rfl, ?_⟩
  intro h
  have h1 : processRequest probeBackend (.obj [("method", .str "ping")])
      = [handle_ping JVal.null] := rfl
  rw [h1] at h
  exact List.cons_ne_nil _ _ h

/-- C3 (amended): on a non-200 backend status whose body decodes to a
mapping, the bridge responds with error code equal to the HTTP status and
the body's `error` field, falling back to "HTTP request failed" when the
field is absent; but when the body is not decodable the bridge instead
responds with code -32603 and an "Internal error: ..." message, not with the
HTTP status. -/
theorem c3_non200_error_mapping (status : Nat) (hs : ¬ status = 200)
    (idv : JVal) (pfields efields : List (String × JVal)) (e : String)
    (hname : (lookupField pfields "name").getD .null = .str "weather_info") :
    handle_call_tool (fun _ => .resp status (.ok (.obj efields))) idv
        (.obj pfields)
      = [mkError idv (Int.ofNat status)
          ((lookupField efields "error").getD (.str "HTTP request failed"))] ∧
    handle_call_tool (fun _ => .resp status (.error e)) idv (.obj pfields)
      = [mkError idv (-32603) (.str ("Internal error: " ++ e))] := by
  have hw : isWeatherTool ((lookupField pfields "name").getD .null) = true := by
    rw [hname]; rfl
  constructor <;> simp [handle_call_tool, hw, hs]

/-- C3 witness: status 404 with body mapping `error ↦ "city not found"`
yields error code 404 with that message. -/
theorem c3_witness :
    handle_call_tool
        (fun _ => .resp 404 (.ok (.obj [("error", JVal.str "city not found")])))
        (.num 5) (.obj [("name", .str "weather_info")])
      = [mkError (.num 5) (Int.ofNat 404)
          ((lookupField [("error", JVal.str "city not found")] "error").getD
            (.str "HTTP request failed"))] :=
  (c3_non200_error_mapping 404 (by decide) (.num 5)
    [("name", .str "weather_info")] [("error", JVal.str "city not found")]
    "x" rfl).1

/-- C3 counterexample: status 404 with an undecodable body yields error code
-32603, not the HTTP status 404 with the generic message that the claim
predicts. -/
theorem c3_counterexample :
    handle_call_tool badBodyBackend (.num 1) (.obj [("name", .str "weather_info")])
      = [mkError (.num 1) (-32603)
          (.str "Internal error: Expecting value: line 1 column 1 (char 0)")] ∧
    respErrorCode (mkError (.num 1) (-32603)
        (.str "Internal error: Expecting value: line 1 column 1 (char 0)"))
      ≠ some 404 := by
  refine ⟨rfl, ?_⟩
  intro h
  have h2 : respErrorCode (mkError (.num 1) (-32603)
      (.str "Internal error: Expecting value: line 1 column 1 (char 0)"))
      = some (-32603) := rfl
  rw [h2] at h
  exact absurd (Option.some.inj h) (by decide)

/-- C4 (confirmed): for every `tools/call` whose extracted tool name is not
`weather_info` (including an absent name) and any arguments, the bridge
responds with -32601, the message ends with the rendered offending name, and
the result is independent of the backend (no HTTP request is issued). -/
theorem c4_unknown_tool (idv : JVal) (pfields : List (String × JVal))
    (b1 b2 : JVal → HTTPResult)
    (hname : (lookupField pfields "name").getD .null ≠ .str "weather_info") :
    handle_call_tool b1 idv (.obj pfields)
      = [mkError idv (-32601)
          (.str ("Unknown tool: "
            ++ pyStr ((lookupField pfields "name").getD .null)))] ∧
    handle_call_tool b1 idv (.obj pfields) = handle_call_tool b2 idv (.obj pfields) ∧
    ∃ pre, "Unknown tool: " ++ pyStr ((lookupField pfields "name").getD .null)
      = pre ++ pyStr ((lookupField pfields "name").getD .null) := by
  have hw := isWeatherTool_eq_false hname
  exact ⟨by simp [handle_call_tool, hw], by simp [handle_call_tool, hw],
    ⟨"Unknown tool: ", rfl⟩⟩

/-- C4 witness: tool name "bogus" with non-mapping arguments yields -32601
under the connection-failing backend, equal to the outcome under a healthy
backend. -/
theorem c4_witness :
    handle_call_tool probeBackend (.num 2)
        (.obj [("name", .str "bogus"), ("arguments", .num 5)])
      = [mkError (.num 2) (-32601) (.str ("Unknown tool: "
          ++ pyStr ((lookupField [("name", JVal.str "bogus"),
              ("arguments", JVal.num 5)] "name").getD .null)))] :=
  (c4_unknown_tool (.num 2) [("name", .str "bogus"), ("arguments", .num 5)]
    probeBackend emptyOkBackend
    (by intro h; exact absurd (JVal.str.inj h) (by decide))).1

/-- C5 (confirmed): on a 200 backend body `{timestamp, results}` whose
per-city records carry the four expected fields, the bridge returns one
success frame wrapping a single text content item whose text is a header
embedding the timestamp, a separator rule, then the per-city blocks in the
order received. -/
theorem c5_success_rendering (idv : JVal) (backend : JVal → HTTPResult)
    (pfields dfields items : List (String × JVal)) (ts : JVal)
    (hname : (lookupField pfields "name").getD .null = .str "weather_info")
    (hb : backend ((lookupField pfields "arguments").getD (.obj []))
        = .resp 200 (.ok (.obj dfields)))
    (hts : lookupField dfields "timestamp" = some ts)
    (hres : lookupField dfields "results" = some (.obj items))
    (hrec : ∀ p ∈ items, recOkB p.2 = true) :
    handle_call_tool backend idv (.obj pfields)
      = [mkResult idv (.obj [("content", .arr
          [.obj [("type", .str "text"),
                 ("text", .str (specWeatherText ts items))]])])] := by
  have hw : isWeatherTool ((lookupField pfields "name").getD .null) = true := by
    rw [hname]; rfl
  simp [handle_call_tool, hw, hb, formatResults_ok hts hres hrec]

/-- C5 witness: the spec's Paris example body renders to the documented
layout. -/
theorem c5_witness :
    handle_call_tool parisBackend (.num 3)
        (.obj [("name", .str "weather_info"),
               ("arguments", .obj [("cities", .arr [.str "Paris"])])])
      = [mkResult (.num 3) (.obj [("content", .arr
          [.obj [("type", .str "text"),
                 ("text", .str (specWeatherText (.str "2024-01-01T00:00:00Z")
                    parisResults))]])])] :=
  c5_success_rendering (.num 3) parisBackend
    [("name", .str "weather_info"),
     ("arguments", .obj [("cities", .arr [.str "Paris"])])]
    parisFields parisResults (.str "2024-01-01T00:00:00Z") rfl rfl rfl rfl
    (by intro p hp; simp [parisResults] at hp; rw [hp]; rfl)

/-- C6 (confirmed): every request whose method is none of the five
recognized names (including an absent method, rendered as None) gets error
-32601 with message "Method not found: <method>". -/
theorem c6_unknown_method (backend : JVal → HTTPResult)
    (fields : List (String × JVal))
    (hm : isKnownMethod ((lookupField fields "method").getD .null) = false) :
    processRequest backend (.obj fields)
      = [mkError ((lookupField fields "id").getD .null) (-32601)
          (.str ("Method not found: "
            ++ pyStr ((lookupField fields "method").getD .null)))] := by
  simp only [isKnownMethod, Bool.or_eq_false_iff] at hm
  obtain ⟨⟨⟨⟨h1, h2⟩, h3⟩, h4⟩, h5⟩ := hm
  simp [processRequest, h1, h2, h3, h4, h5]

/-- C6 witness: method "bogus" with id 7 yields the -32601 frame. -/
theorem c6_witness :
    processRequest probeBackend (.obj [("id", .num 7), ("method", .str "bogus")])
      = [mkError (.num 7) (-32601) (.str ("Method not found: "
          ++ pyStr (JVal.str "bogus")))] :=
  c6_unknown_method probeBackend [("id", .num 7), ("method", .str "bogus")] rfl

/-- C7 (confirmed): a transport-level connection failure yields the fixed
error code -32603 with the message telling the operator to have the backend
running on port 3000. -/
theorem c7_connection_error (idv : JVal) (pfields : List (String × JVal))
    (backend : JVal → HTTPResult)
    (hname : (lookupField pfields "name").getD .null = .str "weather_info")
    (hconn : backend ((lookupField pfields "arguments").getD (.obj []))
        = HTTPResult.connError) :
    handle_call_tool backend idv (.obj pfields)
        = [mkError idv (-32603) (.str connErrorMsg)] ∧
    ∃ pre post, connErrorMsg = pre ++ "running on port 3000" ++ post := by
  have hw : isWeatherTool ((lookupField pfields "name").getD .null) = true := by
    rw [hname]; rfl
  exact ⟨by simp [handle_call_tool, hw, hconn],
    ⟨"Cannot connect to Rust Weather API server. Please ensure 'cargo run --bin server' is ",
     ".", rfl⟩⟩

/-- C7 witness: the connection-failing backend yields the -32603 frame with
the fixed message. -/
theorem c7_witness :
    handle_call_tool probeBackend (.num 9) (.obj [("name", .str "weather_info")])
      = [mkError (.num 9) (-32603) (.str connErrorMsg)] :=
  (c7_connection_error (.num 9) [("name", .str "weather_info")]
    probeBackend rfl rfl).1

/-- C8 (confirmed): an empty, whitespace-only, or undecodable input line
produces no framed response, and the rest of the stream is processed exactly
as if the bad line had not occurred. -/
theorem c8_bad_line_ignored (d : String → Except String JVal)
    (b : JVal → HTTPResult) (line : String) (pre rest : List String)
    (hbad : line.trim = "" ∨ ∃ e, d line.trim = .error e) :
    processLine d b line = [] ∧
    runBridge d b (pre ++ line :: rest)
      = runBridge d b pre ++ runBridge d b rest := by
  have h0 : processLine d b line = [] := by
    unfold processLine
    rcases hbad with h1 | ⟨e, he⟩
    · simp [h1]
    · by_cases ht : line.trim = ""
      · simp [ht]
      · simp [ht, he]
  refine ⟨h0, ?_⟩
  rw [runBridge_append]
  have h1 : runBridge d b (line :: rest)
      = processLine d b line ++ runBridge d b rest := rfl
  rw [h1, h0]
  simp

/-- C8 witness: an undecodable line between two other lines leaves the
stream's output unchanged and produces nothing itself. -/
theorem c8_witness :
    processLine failDecode probeBackend "oops" = [] ∧
    runBridge failDecode probeBackend (["a"] ++ "oops" :: ["b"])
      = runBridge failDecode probeBackend ["a"]
        ++ runBridge failDecode probeBackend ["b"] :=
  c8_bad_line_ignored failDecode probeBackend "oops" ["a"] ["b"]
    (Or.inr ⟨"Expecting value: line 1 column 1 (char 0)", rfl⟩)

/-- C9 (confirmed): on a 200 body that decodes to a mapping missing an
expected field (top-level `timestamp` or `results`, or one of the four
fields of a per-city record), the bridge emits exactly one framed error
whose code is -32603, rather than crashing or emitting nothing. -/
theorem c9_missing_fields_internal_error (idv : JVal)
    (pfields : List (String × JVal)) (backend : JVal → HTTPResult)
    (data : JVal)
    (hname : (lookupField pfields "name").getD .null = .str "weather_info")
    (hb : backend ((lookupField pfields "arguments").getD (.obj []))
        = .resp 200 (.ok data))
    (hmiss : missingWeatherField data) :
    (handle_call_tool backend idv (.obj pfields)).length = 1 ∧
    ∀ r ∈ handle_call_tool backend idv (.obj pfields),
      respErrorCode r = some (-32603) := by
  have hw : isWeatherTool ((lookupField pfields "name").getD .null) = true := by
    rw [hname]; rfl
  obtain ⟨e, he⟩ := formatResults_missing hmiss
  constructor
  · simp [handle_call_tool, hw, hb, he]
  · intro r hr
    simp [handle_call_tool, hw, hb, he] at hr
    rw [hr]
    exact respErrorCode_mkError _ _ _

/-- C9 witness: a 200 body that is an empty mapping (missing `timestamp`)
yields exactly one framed response. -/
theorem c9_witness :
    (handle_call_tool emptyOkBackend (.num 4)
      (.obj [("name", .str "weather_info")])).length = 1 :=
  (c9_missing_fields_internal_error (.num 4) [("name", .str "weather_info")]
    emptyOkBackend (.obj []) rfl rfl ⟨[], rfl, Or.inl rfl⟩).1

/-- C10 (confirmed): the bridge keeps no state across requests: wherever a
line occurs in the stream, processing it twice in succession yields the same
response block twice, independent of the lines before and after. -/
theorem c10_stateless_replay (d : String → Except String JVal)
    (b : JVal → HTTPResult) (line : String) (pre rest : List String) :
    runBridge d b (pre ++ line :: line :: rest)
      = runBridge d b pre ++ processLine d b line ++ processLine d b line
        ++ runBridge d b rest := by
  rw [runBridge_append]
  have h1 : runBridge d b (line :: line :: rest)
      = processLine d b line
        ++ (processLine d b line ++ runBridge d b rest) := rfl
  rw [h1]
  simp [List.append_assoc]
